import Mathlib

/-!
Verification of the chat-completion gateway in `src/desktop/src-tauri/src/ai.rs`.

The Rust code is shallowly embedded: Rust `String`/`&str` values become
`List Char` (named `Str`), raw byte chunks become `List Nat`, `serde_json`
values become the inductive `Json` below, and the stateful streaming loop of
`ai_call` becomes a pure function from the request and a transport outcome to
the list of emitted `StreamEvent`s and the command's result.  A run-time
panic (Rust slice-boundary panics) is modelled by `Option`: `none` stands for
a panic that aborts the call.
-/

namespace Expo

/-- Rust strings are modelled as lists of unicode scalar values. -/
abbrev Str := List Char

/-- Coerce a Lean string literal into the `Str` model. -/
def str (s : String) : Str := s.data

/-- The `White_Space` test of Rust's `char::is_whitespace`, used by `str::trim`. -/
def isRustWs (c : Char) : Bool :=
  let n := c.toNat
  decide (0x09 ≤ n ∧ n ≤ 0x0D) || decide (n = 0x20) || decide (n = 0x85) ||
  decide (n = 0xA0) || decide (n = 0x1680) || decide (0x2000 ≤ n ∧ n ≤ 0x200A) ||
  decide (n = 0x2028) || decide (n = 0x2029) || decide (n = 0x202F) ||
  decide (n = 0x205F) || decide (n = 0x3000)

/-- Rust `str::trim`: drop whitespace from both ends. -/
def rustTrim (s : Str) : Str :=
  ((s.dropWhile isRustWs).reverse.dropWhile isRustWs).reverse

/-- Rust `str::starts_with` for string patterns (the patterns used in the code
are ASCII, so char-level prefix equals byte-level prefix). -/
def startsWithStr (p s : Str) : Bool := p.isPrefixOf s

/-- `serde_json::Value`.  Objects are association lists in insertion order;
only field lookup and insertion are exercised by the code, so the ordering
convention of `serde_json`'s map is not observable here.  Numbers are modelled
as exact rationals: the code only passes them through, never computes. -/
inductive Json where
  | null
  | bool (b : Bool)
  | num (q : ℚ)
  | str (s : Str)
  | arr (xs : List Json)
  | obj (fields : List (Str × Json))

instance : Inhabited Json := ⟨Json.null⟩

/-- First binding of a key in an association list (`serde_json` maps have
unique keys, so first = only). -/
def lookupA (fs : List (Str × Json)) (k : Str) : Option Json :=
  (fs.find? (fun p => p.1 == k)).map (fun p => p.2)

/-- `Value::get` with a string key: field of an object, else `None`. -/
def Json.getS : Json → Str → Option Json
  | .obj fs, k => lookupA fs k
  | _, _ => none

/-- `Value::get` with a `usize` key: element of an array, else `None`. -/
def Json.getN : Json → Nat → Option Json
  | .arr xs, i => xs.get? i
  | _, _ => none

/-- `Value::as_str`. -/
def Json.asStr : Json → Option Str
  | .str s => some s
  | _ => none

/-- `Value::as_array`. -/
def Json.asArr : Json → Option (List Json)
  | .arr xs => some xs
  | _ => none

/-- Replace the value of `k` if bound, else append the binding (the effect of
`body[k] = v` on a `serde_json` object). -/
def setAssoc : List (Str × Json) → Str → Json → List (Str × Json)
  | [], k, v => [(k, v)]
  | (k', v') :: rest, k, v =>
    if k' == k then (k, v) :: rest else (k', v') :: setAssoc rest k v

/-- `body[k] = v` where `body` is an object (the only shape the code mutates). -/
def Json.setField : Json → Str → Json → Json
  | .obj fs, k, v => .obj (setAssoc fs k v)
  | j, _, _ => j

/-- `ChatMessage` of ai.rs. -/
structure ChatMessage where
  role : Str
  content : Str
deriving DecidableEq, Repr

/-- `AiRequest` of ai.rs.  `temperature: Option<f64>` is modelled as an exact
rational: the value is opaquely passed through into the payload. -/
structure AiRequest where
  provider : Str
  api_key : Str
  model : Str
  messages : List ChatMessage
  temperature : Option ℚ
  max_tokens : Option Nat
  stream : Bool
  stream_id : Str

/-- `StreamEvent` of ai.rs. -/
structure StreamEvent where
  stream_id : Str
  delta : Str
  done : Bool
  error : Option Str
deriving DecidableEq, Repr

/-- The `{role, content}` object a `ChatMessage` is mapped to. -/
def msgRC (m : ChatMessage) : Json :=
  Json.obj [(str "role", .str m.role), (str "content", .str m.content)]

/-- `build_openai_body` (ai.rs:31-61): finds the first system message, filters
system messages out, then pushes that first system message (if any) before
the rest. -/
def build_openai_body (r : AiRequest) : Json :=
  let system_msg := r.messages.find? (fun m => m.role == str "system")
  let other_msgs := (r.messages.filter (fun m => m.role != str "system")).map msgRC
  let messages :=
    (match system_msg with
     | some sys =>
       [Json.obj [(str "role", .str (str "system")), (str "content", .str sys.content)]]
     | none => []) ++ other_msgs
  Json.obj
    [ (str "model", .str r.model),
      (str "messages", .arr messages),
      (str "temperature", .num (r.temperature.getD (7 / 10))),
      (str "max_tokens", .num ((r.max_tokens.getD 4096 : Nat) : ℚ)),
      (str "stream", .bool r.stream) ]

/-- `Vec<String>::join("\n")`. -/
def joinNL : List Str → Str
  | [] => []
  | [s] => s
  | s :: rest => s ++ '\n' :: joinNL rest

/-- `build_anthropic_body` (ai.rs:63-97): system contents joined with newlines
into a top-level `system` field, omitted when the join is empty. -/
def build_anthropic_body (r : AiRequest) : Json :=
  let system_content :=
    joinNL ((r.messages.filter (fun m => m.role == str "system")).map (fun m => m.content))
  let messages := (r.messages.filter (fun m => m.role != str "system")).map msgRC
  let body := Json.obj
    [ (str "model", .str r.model),
      (str "messages", .arr messages),
      (str "max_tokens", .num ((r.max_tokens.getD 4096 : Nat) : ℚ)),
      (str "temperature", .num (r.temperature.getD (7 / 10))),
      (str "stream", .bool r.stream) ]
  if system_content.isEmpty then body
  else body.setField (str "system") (.str system_content)

/-- The `contents` entry a non-system message is mapped to by the gemini
builder: role `model` for `assistant`, else `user`; single-element parts. -/
def gemEntry (m : ChatMessage) : Json :=
  Json.obj
    [ (str "role", .str (if m.role == str "assistant" then str "model" else str "user")),
      (str "parts", .arr [Json.obj [(str "text", .str m.content)]]) ]

/-- `build_gemini_body` (ai.rs:99-140). -/
def build_gemini_body (r : AiRequest) : Json :=
  let system_content :=
    joinNL ((r.messages.filter (fun m => m.role == str "system")).map (fun m => m.content))
  let contents := (r.messages.filter (fun m => m.role != str "system")).map gemEntry
  let body := Json.obj
    [ (str "contents", .arr contents),
      (str "generationConfig", Json.obj
        [ (str "temperature", .num (r.temperature.getD (7 / 10))),
          (str "maxOutputTokens", .num ((r.max_tokens.getD 4096 : Nat) : ℚ)) ]) ]
  if system_content.isEmpty then body
  else body.setField (str "systemInstruction")
    (Json.obj [(str "parts", .arr [Json.obj [(str "text", .str system_content)]])])

/-- `get_url` (ai.rs:142-162): empty string marks an unknown provider. -/
def get_url (provider model api_key : Str) (stream : Bool) : Str :=
  if provider == str "openai" then str "https://api.openai.com/v1/chat/completions"
  else if provider == str "xai" then str "https://api.x.ai/v1/chat/completions"
  else if provider == str "anthropic" then str "https://api.anthropic.com/v1/messages"
  else if provider == str "gemini" then
    if stream then
      str "https://generativelanguage.googleapis.com/v1beta/models/" ++ model ++
        str ":streamGenerateContent?alt=sse&key=" ++ api_key
    else
      str "https://generativelanguage.googleapis.com/v1beta/models/" ++ model ++
        str ":generateContent?key=" ++ api_key
  else []

/-! ### A model of `serde_json::from_str::<serde_json::Value>`

A recursive-descent parser over `Str`, fuelled for termination.  It follows
the JSON grammar `serde_json` accepts: optional whitespace between tokens,
strings with the standard escapes (`\uXXXX` with surrogate pairs, lone
surrogates rejected, raw control characters rejected), numbers with optional
sign, fraction and exponent and no leading zeros, and the whole input must be
one value followed only by whitespace. -/

/-- JSON insignificant whitespace. -/
def isWsJ (c : Char) : Bool :=
  c == ' ' || c == '\t' || c == '\n' || c == '\r'

/-- Skip leading JSON whitespace. -/
def skipWsJ : Str → Str
  | [] => []
  | c :: cs => if isWsJ c then skipWsJ cs else c :: cs

/-- The opening-brace character, `\x7b`. -/
def lbrace : Char := Char.ofNat 0x7b

/-- The closing-brace character, `\x7d`. -/
def rbrace : Char := Char.ofNat 0x7d

/-- Value of a hexadecimal digit. -/
def hexDigit (c : Char) : Option Nat :=
  let n := c.toNat
  if decide (48 ≤ n ∧ n ≤ 57) then some (n - 48)
  else if decide (97 ≤ n ∧ n ≤ 102) then some (n - 87)
  else if decide (65 ≤ n ∧ n ≤ 70) then some (n - 55)
  else none

/-- Four hex digits of a `\u` escape. -/
def hex4 : Str → Option (Nat × Str)
  | a :: b :: c :: d :: rest => do
    let x ← hexDigit a
    let y ← hexDigit b
    let z ← hexDigit c
    let w ← hexDigit d
    pure (x * 4096 + y * 256 + z * 16 + w, rest)
  | _ => none

/-- Prepend a char to the parsed-so-far part of a parser result. -/
def strCons (c : Char) (p : Str × Str) : Str × Str := (c :: p.1, p.2)

/-- Body of a JSON string, after the opening quote; returns the decoded
content and the input after the closing quote. -/
def parseStrBody : Nat → Str → Option (Str × Str)
  | 0, _ => none
  | _, [] => none
  | fuel + 1, c :: cs =>
    if c == '"' then some ([], cs)
    else if c == '\\' then
      match cs with
      | [] => none
      | e :: cs2 =>
        if e == '"' then strCons '"' <$> parseStrBody fuel cs2
        else if e == '\\' then strCons '\\' <$> parseStrBody fuel cs2
        else if e == '/' then strCons '/' <$> parseStrBody fuel cs2
        else if e == 'b' then strCons (Char.ofNat 0x08) <$> parseStrBody fuel cs2
        else if e == 'f' then strCons (Char.ofNat 0x0C) <$> parseStrBody fuel cs2
        else if e == 'n' then strCons '\n' <$> parseStrBody fuel cs2
        else if e == 'r' then strCons '\r' <$> parseStrBody fuel cs2
        else if e == 't' then strCons '\t' <$> parseStrBody fuel cs2
        else if e == 'u' then
          match hex4 cs2 with
          | none => none
          | some (n, cs3) =>
            if decide (0xD800 ≤ n ∧ n ≤ 0xDBFF) then
              match cs3 with
              | u1 :: u2 :: cs4 =>
                if u1 == '\\' && u2 == 'u' then
                  match hex4 cs4 with
                  | some (n2, cs5) =>
                    if decide (0xDC00 ≤ n2 ∧ n2 ≤ 0xDFFF) then
                      strCons (Char.ofNat (0x10000 + (n - 0xD800) * 0x400 + (n2 - 0xDC00)))
                        <$> parseStrBody fuel cs5
                    else none
                  | none => none
                else none
              | _ => none
            else if decide (0xDC00 ≤ n ∧ n ≤ 0xDFFF) then none
            else strCons (Char.ofNat n) <$> parseStrBody fuel cs3
        else none
    else if decide (c.toNat < 0x20) then none
    else strCons c <$> parseStrBody fuel cs

/-- Decimal digit test. -/
def isDigitC (c : Char) : Bool := decide (48 ≤ c.toNat ∧ c.toNat ≤ 57)

/-- Consume a run of decimal digits: value, digit count, rest. -/
def takeDigits : Nat → Str → Nat × Nat × Str
  | 0, s => (0, 0, s)
  | _, [] => (0, 0, [])
  | fuel + 1, c :: cs =>
    if isDigitC c then
      let (v, k, rest) := takeDigits fuel cs
      ((c.toNat - 48) * 10 ^ k + v, k + 1, rest)
    else (0, 0, c :: cs)

/-- Optional `.digits` fraction part, as a rational summand. -/
def parseFracPart : Str → Option (ℚ × Str)
  | [] => some (0, [])
  | c :: cs =>
    if c == '.' then
      let (v, k, rest) := takeDigits (cs.length + 1) cs
      if k == 0 then none else some ((v : ℚ) / (10 ^ k : ℚ), rest)
    else some (0, c :: cs)

/-- Optional `e`/`E` exponent part, as a rational multiplier. -/
def parseExpPart : Str → Option (ℚ × Str)
  | [] => some (1, [])
  | c :: cs =>
    if c == 'e' || c == 'E' then
      let (negE, cs2) : Bool × Str :=
        match cs with
        | d :: ds => if d == '+' then (false, ds) else if d == '-' then (true, ds) else (false, cs)
        | [] => (false, [])
      let (v, k, rest) := takeDigits (cs2.length + 1) cs2
      if k == 0 then none
      else some (if negE then (1 : ℚ) / (10 ^ v : ℚ) else ((10 ^ v : Nat) : ℚ), rest)
    else some (1, c :: cs)

/-- A JSON number: sign, integer part without leading zeros, optional fraction
and exponent. -/
def parseNumber (s : Str) : Option (ℚ × Str) :=
  let (neg, s1) : Bool × Str :=
    match s with
    | c :: cs => if c == '-' then (true, cs) else (false, s)
    | [] => (false, [])
  match s1 with
  | [] => none
  | c :: cs =>
    if !isDigitC c then none
    else
      let (iv, s2) : Nat × Str :=
        if c == '0' then (0, cs)
        else
          let (v, _, rest) := takeDigits (s1.length + 1) s1
          (v, rest)
      match parseFracPart s2 with
      | none => none
      | some (fq, s3) =>
        match parseExpPart s3 with
        | none => none
        | some (em, s4) =>
          let val : ℚ := ((iv : ℚ) + fq) * em
          some (if neg then -val else val, s4)

/-- Expect a literal keyword (`true`, `false`, `null` tails). -/
def expectLit : Str → Str → Option Str
  | [], s => some s
  | c :: cs, d :: ds => if c == d then expectLit cs ds else none
  | _ :: _, [] => none

mutual

/-- A JSON value, with leading whitespace. -/
def parseVal : Nat → Str → Option (Json × Str)
  | 0, _ => none
  | fuel + 1, s =>
    match skipWsJ s with
    | [] => none
    | c :: cs =>
      if c == '"' then
        (fun p => (Json.str p.1, p.2)) <$> parseStrBody (cs.length + 1) cs
      else if c == lbrace then parseObjItems fuel cs
      else if c == '[' then parseArrItems fuel cs
      else if c == 't' then (fun rest => (Json.bool true, rest)) <$> expectLit (str "rue") cs
      else if c == 'f' then (fun rest => (Json.bool false, rest)) <$> expectLit (str "alse") cs
      else if c == 'n' then (fun rest => (Json.null, rest)) <$> expectLit (str "ull") cs
      else (fun p => (Json.num p.1, p.2)) <$> parseNumber (c :: cs)

/-- One `"key": value` pair of an object. -/
def parsePair : Nat → Str → Option ((Str × Json) × Str)
  | 0, _ => none
  | fuel + 1, s =>
    match skipWsJ s with
    | [] => none
    | c :: cs =>
      if c == '"' then
        match parseStrBody (cs.length + 1) cs with
        | none => none
        | some (k, rest) =>
          match skipWsJ rest with
          | d :: ds =>
            if d == ':' then
              (fun p => ((k, p.1), p.2)) <$> parseVal fuel ds
            else none
          | [] => none
      else none

/-- Object items, after the opening brace. -/
def parseObjItems : Nat → Str → Option (Json × Str)
  | 0, _ => none
  | fuel + 1, s =>
    match skipWsJ s with
    | [] => none
    | c :: cs =>
      if c == rbrace then some (Json.obj [], cs)
      else
        match parsePair fuel (c :: cs) with
        | none => none
        | some (kv, rest) => parseObjTail fuel [kv] rest

/-- Further object items: a comma and a pair, or the closing brace. -/
def parseObjTail : Nat → List (Str × Json) → Str → Option (Json × Str)
  | 0, _, _ => none
  | fuel + 1, acc, s =>
    match skipWsJ s with
    | [] => none
    | c :: cs =>
      if c == rbrace then some (Json.obj acc, cs)
      else if c == ',' then
        match parsePair fuel cs with
        | none => none
        | some (kv, rest) => parseObjTail fuel (acc ++ [kv]) rest
      else none

/-- Array items, after the opening bracket. -/
def parseArrItems : Nat → Str → Option (Json × Str)
  | 0, _ => none
  | fuel + 1, s =>
    match skipWsJ s with
    | [] => none
    | c :: cs =>
      if c == ']' then some (Json.arr [], cs)
      else
        match parseVal fuel (c :: cs) with
        | none => none
        | some (v, rest) => parseArrTail fuel [v] rest

/-- Further array items: a comma and a value, or the closing bracket. -/
def parseArrTail : Nat → List Json → Str → Option (Json × Str)
  | 0, _, _ => none
  | fuel + 1, acc, s =>
    match skipWsJ s with
    | [] => none
    | c :: cs =>
      if c == ']' then some (Json.arr acc, cs)
      else if c == ',' then
        match parseVal fuel cs with
        | none => none
        | some (v, rest) => parseArrTail fuel (acc ++ [v]) rest
      else none

end

/-- `serde_json::from_str::<Value>`: one complete value, trailing whitespace
only.  The fuel is ample for the input length (each unit of fuel spent on
recursion consumes input). -/
def from_str (s : Str) : Option Json :=
  match parseVal (4 * s.length + 16) s with
  | some (v, rest) => if (skipWsJ rest).isEmpty then some v else none
  | none => none

/-! ### Error classifier, extractors, termination detection -/

/-- UTF-8 byte length of a char (`char::len_utf8`). -/
def charUtf8Len (c : Char) : Nat :=
  if c.toNat < 0x80 then 1
  else if c.toNat < 0x800 then 2
  else if c.toNat < 0x10000 then 3
  else 4

/-- Rust `String::len`: the UTF-8 byte length. -/
def utf8Len (s : Str) : Nat := (s.map charUtf8Len).sum

/-- Rust byte slicing `&s[..n]` for a valid-UTF-8 string: the chars making up
the first `n` bytes, or `none` when `n` is not a character boundary (Rust
panics there). -/
def byteSlice (s : Str) (n : Nat) : Option Str :=
  if n = 0 then some []
  else
    match s with
    | [] => none
    | c :: cs =>
      if charUtf8Len c ≤ n then (byteSlice cs (n - charUtf8Len c)).map (c :: ·)
      else none

/-- Decimal rendering of a digit. -/
def digitChar (d : Nat) : Char := Char.ofNat (48 + d)

/-- Decimal rendering of a `Nat`, as `format!` prints an integer status. -/
def natToStrGo : Nat → Nat → Str
  | 0, _ => []
  | fuel + 1, n => if n < 10 then [digitChar n] else natToStrGo fuel (n / 10) ++ [digitChar (n % 10)]

/-- Decimal rendering of a `Nat`. -/
def natToStr (n : Nat) : Str := natToStrGo (n + 1) n

/-- `map_error` (ai.rs:164-184).  The catch-all arm byte-slices the body at
`body_text.len().min(300)`, which panics when that index is inside a
multi-byte character: the panic is modelled as `none`. -/
def map_error (status : Nat) (provider model body_text : Str) : Option Str :=
  if status == 401 then some (str "Invalid API key for " ++ provider)
  else if status == 429 then some (str "Rate limited by " ++ provider ++ str ". Wait and retry.")
  else if status == 404 then some (str "Model " ++ model ++ str " not found on " ++ provider)
  else if status == 400 then
    let msg :=
      match ((from_str body_text).bind (fun v =>
          ((v.getS (str "error")).bind (fun e => e.getS (str "message"))).bind Json.asStr)) with
      | some m => m
      | none => body_text.take 300
    some (str "Bad request to " ++ provider ++ str ": " ++ msg)
  else if status == 500 || status == 502 || status == 503 then
    some (provider ++ str " server error. Try again later.")
  else
    (byteSlice body_text (min (utf8Len body_text) 300)).map (fun t =>
      provider ++ str " returned status " ++ natToStr status ++ str ": " ++ t)

/-- `extract_non_stream_content` (ai.rs:186-215). -/
def extract_non_stream_content (provider : Str) (body : Json) : Except Str Str :=
  if provider == str "openai" || provider == str "xai" then
    match ((((body.getS (str "choices")).bind (fun c => c.getN 0)).bind
        (fun c => c.getS (str "message"))).bind (fun m => m.getS (str "content"))).bind
        Json.asStr with
    | some s => .ok s
    | none => .error (str "Failed to parse response from API")
  else if provider == str "anthropic" then
    match (((body.getS (str "content")).bind (fun c => c.getN 0)).bind
        (fun c => c.getS (str "text"))).bind Json.asStr with
    | some s => .ok s
    | none => .error (str "Failed to parse Anthropic response")
  else if provider == str "gemini" then
    match ((((((body.getS (str "candidates")).bind (fun c => c.getN 0)).bind
        (fun c => c.getS (str "content"))).bind (fun c => c.getS (str "parts"))).bind
        (fun p => p.getN 0)).bind (fun p => p.getS (str "text"))).bind Json.asStr with
    | some s => .ok s
    | none => .error (str "Failed to parse Gemini response")
  else .error (str "Unknown provider: " ++ provider)

/-- `extract_stream_delta` (ai.rs:217-250). -/
def extract_stream_delta (provider data : Str) : Option Str :=
  match from_str data with
  | none => none
  | some parsed =>
    if provider == str "openai" || provider == str "xai" then
      ((((parsed.getS (str "choices")).bind (fun c => c.getN 0)).bind
          (fun c => c.getS (str "delta"))).bind (fun d => d.getS (str "content"))).bind
        Json.asStr
    else if provider == str "anthropic" then
      let event_type :=
        match (parsed.getS (str "type")).bind Json.asStr with
        | some t => t
        | none => []
      if event_type == str "content_block_delta" then
        ((parsed.getS (str "delta")).bind (fun d => d.getS (str "text"))).bind Json.asStr
      else none
    else if provider == str "gemini" then
      ((((((parsed.getS (str "candidates")).bind (fun c => c.getN 0)).bind
          (fun c => c.getS (str "content"))).bind (fun c => c.getS (str "parts"))).bind
          (fun p => p.getN 0)).bind (fun p => p.getS (str "text"))).bind Json.asStr
    else none

/-- The openai/xai termination field: first choice's `finish_reason` as a
string (ai.rs:259-264). -/
def openaiFinish (v : Json) : Option Str :=
  ((((v.getS (str "choices")).bind Json.asArr).bind List.head?).bind
    (fun c => c.getS (str "finish_reason"))).bind Json.asStr

/-- The anthropic termination field: the event's `type` as a string. -/
def anthType (v : Json) : Option Str := (v.getS (str "type")).bind Json.asStr

/-- The gemini termination field: first candidate's `finishReason` as a
string. -/
def geminiFinish (v : Json) : Option Str :=
  ((((v.getS (str "candidates")).bind Json.asArr).bind List.head?).bind
    (fun c => c.getS (str "finishReason"))).bind Json.asStr

/-- `is_stream_done` (ai.rs:252-285): the `[DONE]` sentinel first, then the
provider-specific marker on the parsed payload; every fall-through is
`false`. -/
def is_stream_done (provider data : Str) : Bool :=
  if rustTrim data == str "[DONE]" then true
  else
    match from_str data with
    | none => false
    | some parsed =>
      if provider == str "openai" || provider == str "xai" then
        match openaiFinish parsed with
        | some reason => reason == str "stop" || reason == str "end_turn"
        | none => false
      else if provider == str "anthropic" then
        match anthType parsed with
        | some t => t == str "message_stop"
        | none => false
      else if provider == str "gemini" then
        match geminiFinish parsed with
        | some reason => reason == str "STOP" || reason == str "MAX_TOKENS"
        | none => false
      else false

/-! ### Byte chunks and `String::from_utf8_lossy`

Rust's lossy decoding substitutes U+FFFD for each maximal subpart of an
ill-formed sequence: a truncated sequence at the end of the slice is one
replacement; a stray continuation byte is one replacement on its own. -/

/-- The replacement character U+FFFD. -/
def replChar : Char := Char.ofNat 0xFFFD

/-- UTF-8 continuation byte test. -/
def isCont (b : Nat) : Bool := decide (0x80 ≤ b ∧ b ≤ 0xBF)

/-- Admissible first continuation byte after a three-byte lead. -/
def cont1ok3 (b b1 : Nat) : Bool :=
  if b == 0xE0 then decide (0xA0 ≤ b1 ∧ b1 ≤ 0xBF)
  else if b == 0xED then decide (0x80 ≤ b1 ∧ b1 ≤ 0x9F)
  else isCont b1

/-- Admissible first continuation byte after a four-byte lead. -/
def cont1ok4 (b b1 : Nat) : Bool :=
  if b == 0xF0 then decide (0x90 ≤ b1 ∧ b1 ≤ 0xBF)
  else if b == 0xF4 then decide (0x80 ≤ b1 ∧ b1 ≤ 0x8F)
  else isCont b1

/-- `String::from_utf8_lossy`, fuelled (each step consumes at least one
byte).  On a failed sequence, the bytes forming its longest valid prefix are
replaced by one U+FFFD and decoding resumes at the offending byte. -/
def utf8LossyGo : Nat → List Nat → Str
  | 0, _ => []
  | _, [] => []
  | fuel + 1, b :: rest =>
    if b < 0x80 then Char.ofNat b :: utf8LossyGo fuel rest
    else if decide (0xC2 ≤ b ∧ b ≤ 0xDF) then
      match rest with
      | [] => [replChar]
      | b1 :: rest1 =>
        if isCont b1 then
          Char.ofNat ((b - 0xC0) * 0x40 + (b1 - 0x80)) :: utf8LossyGo fuel rest1
        else replChar :: utf8LossyGo fuel rest
    else if decide (0xE0 ≤ b ∧ b ≤ 0xEF) then
      match rest with
      | [] => [replChar]
      | b1 :: rest1 =>
        if cont1ok3 b b1 then
          match rest1 with
          | [] => [replChar]
          | b2 :: rest2 =>
            if isCont b2 then
              Char.ofNat ((b - 0xE0) * 0x1000 + (b1 - 0x80) * 0x40 + (b2 - 0x80)) ::
                utf8LossyGo fuel rest2
            else replChar :: utf8LossyGo fuel rest1
        else replChar :: utf8LossyGo fuel rest
    else if decide (0xF0 ≤ b ∧ b ≤ 0xF4) then
      match rest with
      | [] => [replChar]
      | b1 :: rest1 =>
        if cont1ok4 b b1 then
          match rest1 with
          | [] => [replChar]
          | b2 :: rest2 =>
            if isCont b2 then
              match rest2 with
              | [] => [replChar]
              | b3 :: rest3 =>
                if isCont b3 then
                  Char.ofNat ((b - 0xF0) * 0x40000 + (b1 - 0x80) * 0x1000 +
                      (b2 - 0x80) * 0x40 + (b3 - 0x80)) :: utf8LossyGo fuel rest3
                else replChar :: utf8LossyGo fuel rest2
            else replChar :: utf8LossyGo fuel rest1
        else replChar :: utf8LossyGo fuel rest
    else replChar :: utf8LossyGo fuel rest

/-- `String::from_utf8_lossy` over a byte chunk. -/
def utf8Lossy (bs : List Nat) : Str := utf8LossyGo (bs.length + 1) bs

/-- UTF-8 encoding of one char. -/
def encodeChar (c : Char) : List Nat :=
  let n := c.toNat
  if n < 0x80 then [n]
  else if n < 0x800 then [0xC0 + n / 0x40, 0x80 + n % 0x40]
  else if n < 0x10000 then [0xE0 + n / 0x1000, 0x80 + (n / 0x40) % 0x40, 0x80 + n % 0x40]
  else [0xF0 + n / 0x40000, 0x80 + (n / 0x1000) % 0x40, 0x80 + (n / 0x40) % 0x40, 0x80 + n % 0x40]

/-- UTF-8 encoding of a string, for building concrete byte chunks. -/
def utf8Encode (s : Str) : List Nat := s.foldr (fun c acc => encodeChar c ++ acc) []

/-! ### The streaming loop of `ai_call` (ai.rs:287-442)

The external transport is a status, the full body text (what
`response.text()` would return on a non-2xx response or in non-streaming
mode), and the sequence of byte-chunk results the stream yields.  The
orchestrator is the pure function from the request and that transport
outcome to the emitted events and the command's result. -/

deriving instance DecidableEq for Except

/-- What the HTTP transport hands the call once a response arrived. -/
structure Transport where
  status : Nat
  bodyText : Str
  chunks : List (Except Str (List Nat))

/-- The observable outcome of one `ai_call` invocation: the events emitted on
the `ai-stream` channel in order, whether the provider payload was built,
whether the request was dispatched to the transport, and the command's
result — `none` when the call panics before returning. -/
structure CallOut where
  events : List StreamEvent
  builtBody : Bool
  dispatched : Bool
  result : Option (Except Str Str)
deriving DecidableEq, Repr

/-- Split the buffer at its first line feed, as `buffer.find('\n')` plus the
two reslicings do. -/
def splitAtNl : Str → Option (Str × Str)
  | [] => none
  | c :: cs =>
    if c == '\n' then some ([], cs)
    else (fun p => (c :: p.1, p.2)) <$> splitAtNl cs

/-- The SSE data payload of a trimmed line: after `data: ` verbatim, after
`data:` re-trimmed, and `none` for any other (skipped) line. -/
def lineData (line : Str) : Option Str :=
  if startsWithStr (str "data: ") line then some (line.drop 6)
  else if startsWithStr (str "data:") line then some (rustTrim (line.drop 5))
  else none

/-- What one SSE data payload makes the loop emit (ai.rs:398-417): the events
for that payload and whether the stream just terminated.  A termination
marker emits the terminal event and stops; otherwise a non-empty delta emits
one non-terminal event. -/
def dataEvents (provider sid data : Str) : List StreamEvent × Bool :=
  if is_stream_done provider data then ([⟨sid, [], true, none⟩], true)
  else
    match extract_stream_delta provider data with
    | some d => if d.isEmpty then ([], false) else ([⟨sid, d, false, none⟩], false)
    | none => ([], false)

/-- The inner `while let Some(newline_pos) = buffer.find('\n')` loop: process
complete lines off the buffer, returning the events emitted, the remaining
buffer, and whether a termination marker fired.  Fuelled: each iteration
removes at least the line feed from the buffer. -/
def drain (provider sid : Str) : Nat → Str → List StreamEvent × Str × Bool
  | 0, buf => ([], buf, false)
  | fuel + 1, buf =>
    match splitAtNl buf with
    | none => ([], buf, false)
    | some (pre, post) =>
      let line := rustTrim pre
      if line.isEmpty then drain provider sid fuel post
      else
        match lineData line with
        | none => drain provider sid fuel post
        | some data =>
          let (evs, done) := dataEvents provider sid data
          if done then (evs, post, true)
          else
            let (evs2, rem, d2) := drain provider sid fuel post
            (evs ++ evs2, rem, d2)

/-- The outer `while let Some(chunk_result) = byte_stream.next().await` loop:
each `Ok` chunk is lossily decoded and appended to the buffer, then complete
lines are drained; a marker stops consumption and returns `Ok` after the
terminal event; a chunk error emits a terminal error event and returns
`Err`; chunk exhaustion emits the graceful terminal event. -/
def pump (provider sid : Str) : Str → List (Except Str (List Nat)) → List StreamEvent × Except Str Str
  | _, [] => ([⟨sid, [], true, none⟩], .ok [])
  | buf, chunk :: rest =>
    match chunk with
    | .error e =>
      let msg := str "Stream error from " ++ provider ++ str ": " ++ e
      ([⟨sid, [], true, some msg⟩], .error msg)
    | .ok bytes =>
      let buf1 := buf ++ utf8Lossy bytes
      match drain provider sid (buf1.length + 1) buf1 with
      | (evs, _, true) => (evs, .ok [])
      | (evs, rem, false) =>
        let (evs2, res) := pump provider sid rem rest
        (evs ++ evs2, res)

/-- The provider dispatch of ai.rs:299-304: which builder shapes the payload,
`none` for the unreachable unknown-provider arm. -/
def buildBodyFor (r : AiRequest) : Option Json :=
  if r.provider == str "openai" || r.provider == str "xai" then some (build_openai_body r)
  else if r.provider == str "anthropic" then some (build_anthropic_body r)
  else if r.provider == str "gemini" then some (build_gemini_body r)
  else none

/-- `ai_call` (ai.rs:287-442) once the transport produced a response.  The
unknown-provider check precedes payload building and dispatch.  A `map_error`
panic aborts the call before its `app.emit` (so with the events emitted up to
that point, and `result = none`). -/
def ai_call (r : AiRequest) (t : Transport) : CallOut :=
  let url := get_url r.provider r.model r.api_key r.stream
  if url.isEmpty then
    { events := [], builtBody := false, dispatched := false,
      result := some (.error (str "Unknown provider: " ++ r.provider)) }
  else
    match buildBodyFor r with
    | none =>
      { events := [], builtBody := false, dispatched := false,
        result := some (.error (str "Unknown provider: " ++ r.provider)) }
    | some _body =>
      if !r.stream then
        if decide (t.status < 200) || decide (300 ≤ t.status) then
          match map_error t.status r.provider r.model t.bodyText with
          | none => { events := [], builtBody := true, dispatched := true, result := none }
          | some m =>
            { events := [], builtBody := true, dispatched := true, result := some (.error m) }
        else
          match from_str t.bodyText with
          | none =>
            { events := [], builtBody := true, dispatched := true,
              result := some (.error (str "Failed to parse response JSON")) }
          | some parsed =>
            { events := [], builtBody := true, dispatched := true,
              result := some (extract_non_stream_content r.provider parsed) }
      else
        if decide (t.status < 200) || decide (300 ≤ t.status) then
          match map_error t.status r.provider r.model t.bodyText with
          | none => { events := [], builtBody := true, dispatched := true, result := none }
          | some m =>
            { events := [⟨r.stream_id, [], true, some m⟩], builtBody := true,
              dispatched := true, result := some (.error m) }
        else
          let (evs, res) := pump r.provider r.stream_id [] t.chunks
          { events := evs, builtBody := true, dispatched := true, result := some res }

/-! ### Concrete inputs used by counterexamples and witnesses -/

/-- A request whose message array holds two system messages with a user
message between them. -/
def reqTwoSystems : AiRequest :=
  { provider := str "openai", api_key := str "k", model := str "m",
    messages := [⟨str "system", str "s1"⟩, ⟨str "user", str "u"⟩, ⟨str "system", str "s2"⟩],
    temperature := none, max_tokens := none, stream := false, stream_id := str "id" }

/-- Length of the array behind an optional `Json` value. -/
def optArrLen : Option Json → Nat
  | some (.arr xs) => xs.length
  | _ => 0

/-- The SSE line `data: {"choices":[{"delta":{"content":"` up to the delta
text. -/
def ssePrefix : Str := str "data: \x7b\"choices\":[\x7b\"delta\":\x7b\"content\":\""

/-- The rest of that SSE line after the delta text, with its line feed. -/
def sseSuffix : Str := str "\"\x7d\x7d]\x7d\n"

/-- The whole SSE line as bytes; the delta text is `é` = `C3 A9`. -/
def sseWhole : List Nat := utf8Encode ssePrefix ++ [0xC3, 0xA9] ++ utf8Encode sseSuffix

/-- The same bytes cut right after the lead byte `C3` of `é`. -/
def sseCutA : List Nat := utf8Encode ssePrefix ++ [0xC3]

/-- The remainder: the continuation byte `A9` and the rest of the line. -/
def sseCutB : List Nat := 0xA9 :: utf8Encode sseSuffix

/-- An openai payload carrying both the termination marker
`finish_reason: "stop"` and delta text. -/
def doneData : Str :=
  str "\x7b\"choices\":[\x7b\"finish_reason\":\"stop\",\"delta\":\x7b\"content\":\"x\"\x7d\x7d]\x7d"

/-- The parse of `doneData`. -/
def doneJson : Json :=
  Json.obj [(str "choices", .arr
    [.obj [(str "finish_reason", .str (str "stop")),
           (str "delta", Json.obj [(str "content", .str (str "x"))])]])]

/-- A body of 301 UTF-8 bytes whose 300th byte falls inside the two-byte
character `é`. -/
def longBody : Str := List.replicate 299 'a' ++ [Char.ofNat 0xE9]

/-- A streaming openai request. -/
def reqStream : AiRequest :=
  { provider := str "openai", api_key := str "k", model := str "m",
    messages := [⟨str "user", str "hi"⟩], temperature := none, max_tokens := none,
    stream := true, stream_id := str "sid" }

/-- A transport outcome: status 418 with `longBody` as the response body. -/
def transport418 : Transport := { status := 418, bodyText := longBody, chunks := [] }

/-- A request with an unknown provider string. -/
def reqFoo : AiRequest :=
  { provider := str "foo", api_key := str "k", model := str "m",
    messages := [⟨str "user", str "hi"⟩], temperature := none, max_tokens := none,
    stream := false, stream_id := str "id" }

/-- A transport outcome for witnesses that must not be consulted. -/
def transportOk : Transport := { status := 200, bodyText := [], chunks := [] }

/-- An anthropic-shaped request with two system messages around a user
message. -/
def reqAnth : AiRequest :=
  { provider := str "anthropic", api_key := str "k", model := str "m",
    messages := [⟨str "system", str "a"⟩, ⟨str "user", str "u"⟩, ⟨str "system", str "b"⟩],
    temperature := none, max_tokens := none, stream := false, stream_id := str "id" }

/-- A gemini-shaped request with a system message and an assistant message. -/
def reqGem : AiRequest :=
  { provider := str "gemini", api_key := str "k", model := str "m",
    messages := [⟨str "system", str "a"⟩, ⟨str "user", str "u"⟩, ⟨str "assistant", str "v"⟩],
    temperature := none, max_tokens := none, stream := false, stream_id := str "id" }

/-! ### Theorems -/

/-- C1 counterexample: on a request with two system messages the openai-style
builder does not keep every message in place — the built `messages` array has
only two entries where the claim requires all three. -/
theorem build_openai_two_systems_not_preserved :
    ¬ ((build_openai_body reqTwoSystems).getS (str "messages")
        = some (.arr (reqTwoSystems.messages.map msgRC))) :=
  fun h => absurd (show (2 : Nat) = 3 from congrArg optArrLen h) (by decide)

/-- C1 (amended): for openai/xai the built message array is the first system
message (if any) hoisted to the front, followed by the non-system messages in
their original relative order, each mapped to `{role, content}`; system
messages after the first are dropped. -/
theorem build_openai_body_messages_shape (r : AiRequest) :
    (build_openai_body r).getS (str "messages") =
      some (.arr (((r.messages.find? (fun m => m.role == str "system")).toList.map
            (fun sys => Json.obj
              [(str "role", .str (str "system")), (str "content", .str sys.content)]))
          ++ (r.messages.filter (fun m => m.role != str "system")).map msgRC)) := by
  cases h : r.messages.find? (fun m => m.role == str "system") <;>
    simp +decide [build_openai_body, Json.getS, lookupA, h]

/-- C7: the anthropic builder keeps exactly the non-system messages in the
array, and binds the top-level `system` field to the newline-join of the
system contents exactly when that join is non-empty. -/
theorem build_anthropic_body_system_field (r : AiRequest) :
    ((build_anthropic_body r).getS (str "messages")
        = some (.arr ((r.messages.filter (fun m => m.role != str "system")).map msgRC)))
    ∧ (joinNL ((r.messages.filter (fun m => m.role == str "system")).map (fun m => m.content)) = []
        → (build_anthropic_body r).getS (str "system") = none)
    ∧ (joinNL ((r.messages.filter (fun m => m.role == str "system")).map (fun m => m.content)) ≠ []
        → (build_anthropic_body r).getS (str "system")
            = some (.str (joinNL
                ((r.messages.filter (fun m => m.role == str "system")).map (fun m => m.content))))) := by
  cases h : joinNL ((r.messages.filter (fun m => m.role == str "system")).map (fun m => m.content)) <;>
    simp +decide [build_anthropic_body, Json.getS, Json.setField, setAssoc, lookupA, h]

/-- C7 witness: on a concrete request with system contents `a` and `b` the
anthropic body's `system` field is the newline join `a\nb`. -/
theorem build_anthropic_body_system_field_witness :
    (build_anthropic_body reqAnth).getS (str "system") = some (.str (str "a\nb")) :=
  (build_anthropic_body_system_field reqAnth).2.2 (by decide)

/-- C8: the gemini builder maps each non-system message into `contents` with
role `model` for `assistant` and `user` otherwise, the content as the sole
element of a one-element parts list, and binds `systemInstruction` to the
newline-join of the system contents exactly when that join is non-empty. -/
theorem build_gemini_body_shape (r : AiRequest) :
    ((build_gemini_body r).getS (str "contents")
        = some (.arr ((r.messages.filter (fun m => m.role != str "system")).map gemEntry)))
    ∧ (joinNL ((r.messages.filter (fun m => m.role == str "system")).map (fun m => m.content)) = []
        → (build_gemini_body r).getS (str "systemInstruction") = none)
    ∧ (joinNL ((r.messages.filter (fun m => m.role == str "system")).map (fun m => m.content)) ≠ []
        → (build_gemini_body r).getS (str "systemInstruction")
            = some (Json.obj [(str "parts", .arr [Json.obj [(str "text", .str (joinNL
                ((r.messages.filter (fun m => m.role == str "system")).map (fun m => m.content))))]])])) := by
  cases h : joinNL ((r.messages.filter (fun m => m.role == str "system")).map (fun m => m.content)) <;>
    simp +decide [build_gemini_body, Json.getS, Json.setField, setAssoc, lookupA, h]

/-- C8 witness: on a concrete request with an assistant message the built
`contents` entry for it carries role `model`, and `systemInstruction` holds
the system content. -/
theorem build_gemini_body_shape_witness :
    (build_gemini_body reqGem).getS (str "contents")
      = some (.arr [gemEntry ⟨str "user", str "u"⟩, gemEntry ⟨str "assistant", str "v"⟩]) :=
  (build_gemini_body_shape reqGem).1

/-- C9: a data payload that trims to `[DONE]` signals termination for every
provider string, known or not. -/
theorem is_stream_done_sentinel (provider data : Str)
    (h : rustTrim data = str "[DONE]") : is_stream_done provider data = true := by
  simp [is_stream_done, h]

/-- C9 witness: the sentinel fires for the unknown provider `foo` on a padded
payload. -/
theorem is_stream_done_sentinel_witness :
    is_stream_done (str "foo") (str "  [DONE] ") = true :=
  is_stream_done_sentinel (str "foo") (str "  [DONE] ") (by decide)

/-- C10: the provider payload built by `ai_call`'s dispatch is independent of
the credential — two requests differing only in `api_key` build equal bodies
for every provider. -/
theorem buildBodyFor_ignores_api_key (provider k1 k2 model : Str)
    (messages : List ChatMessage) (temperature : Option ℚ) (max_tokens : Option Nat)
    (stream : Bool) (stream_id : Str) :
    buildBodyFor ⟨provider, k1, model, messages, temperature, max_tokens, stream, stream_id⟩
      = buildBodyFor ⟨provider, k2, model, messages, temperature, max_tokens, stream, stream_id⟩ :=
  rfl

/-- C5: processing one SSE data payload yields nothing, one non-empty
non-terminal delta event, or one terminal event — never a delta together with
the terminal; and a payload whose parse carries the provider's termination
marker yields the terminal outcome with no delta event, whatever else the
payload contains. -/
theorem dataEvents_exclusive_and_marker (provider sid data : Str) :
    (dataEvents provider sid data = ([], false)
      ∨ (∃ d, d ≠ [] ∧ dataEvents provider sid data = ([⟨sid, d, false, none⟩], false))
      ∨ dataEvents provider sid data = ([⟨sid, [], true, none⟩], true))
    ∧ (∀ v, from_str data = some v →
        ((provider = str "openai" ∨ provider = str "xai") →
          ∀ reason, openaiFinish v = some reason →
            reason = str "stop" ∨ reason = str "end_turn" →
            dataEvents provider sid data = ([⟨sid, [], true, none⟩], true))
        ∧ (provider = str "anthropic" → anthType v = some (str "message_stop") →
            dataEvents provider sid data = ([⟨sid, [], true, none⟩], true))
        ∧ (provider = str "gemini" →
            ∀ reason, geminiFinish v = some reason →
              reason = str "STOP" ∨ reason = str "MAX_TOKENS" →
              dataEvents provider sid data = ([⟨sid, [], true, none⟩], true))) := by
  have hterm : ∀ hd : is_stream_done provider data = true,
      dataEvents provider sid data = ([⟨sid, [], true, none⟩], true) := by
    intro hd; simp [dataEvents, hd]
  constructor
  · by_cases hd : is_stream_done provider data
    · exact Or.inr (Or.inr (hterm hd))
    · cases he : extract_stream_delta provider data with
      | none => exact Or.inl (by simp [dataEvents, hd, he])
      | some d =>
        cases d with
        | nil => exact Or.inl (by simp [dataEvents, hd, he])
        | cons c cs =>
          exact Or.inr (Or.inl ⟨c :: cs, by simp, by simp [dataEvents, hd, he]⟩)
  · intro v hv
    refine ⟨?_, ?_, ?_⟩
    · intro hp reason hr hs
      refine hterm ?_
      unfold is_stream_done
      rw [hv]
      split
      · rfl
      · rcases hp with hp | hp <;> rw [hp] <;> rcases hs with hs | hs <;>
          simp +decide [hr, hs]
    · intro hp ht
      refine hterm ?_
      unfold is_stream_done
      rw [hv]
      split
      · rfl
      · rw [hp]; simp +decide [ht]
    · intro hp reason hr hs
      refine hterm ?_
      unfold is_stream_done
      rw [hv]
      split
      · rfl
      · rw [hp]; rcases hs with hs | hs <;> simp +decide [hr, hs]

/-- C5 witness: an openai payload carrying `finish_reason: "stop"` together
with delta text yields the terminal outcome and no delta event. -/
theorem dataEvents_marker_witness :
    dataEvents (str "openai") (str "s") doneData = ([⟨str "s", [], true, none⟩], true) :=
  ((dataEvents_exclusive_and_marker (str "openai") (str "s") doneData).2 doneJson rfl).1
    (Or.inl rfl) (str "stop") rfl (Or.inl rfl)

/-- C6: for a provider outside {openai, xai, anthropic, gemini} the call
fails with `Unknown provider: <provider>` before any payload is built and
before any transport interaction, emitting no event. -/
theorem ai_call_unknown_provider (r : AiRequest) (t : Transport)
    (h1 : r.provider ≠ str "openai") (h2 : r.provider ≠ str "xai")
    (h3 : r.provider ≠ str "anthropic") (h4 : r.provider ≠ str "gemini") :
    ai_call r t =
      { events := [], builtBody := false, dispatched := false,
        result := some (.error (str "Unknown provider: " ++ r.provider)) } := by
  have hu : get_url r.provider r.model r.api_key r.stream = [] := by
    simp [get_url, h1, h2, h3, h4]
  simp [ai_call, hu]

/-- C6 witness: the unknown provider `foo` fails with `Unknown provider: foo`
with no payload built, no dispatch and no event. -/
theorem ai_call_unknown_provider_witness :
    ai_call reqFoo transportOk =
      { events := [], builtBody := false, dispatched := false,
        result := some (.error (str "Unknown provider: foo")) } :=
  ai_call_unknown_provider reqFoo transportOk (by decide) (by decide) (by decide) (by decide)

set_option maxRecDepth 16000 in
/-- C2 evaluation: one SSE line whose delta text is `é` (bytes `C3 A9`), fed
whole, yields the delta `é` and a clean terminal; fed as two chunks split
between `C3` and `A9` it yields the delta `U+FFFD U+FFFD` instead — the
per-chunk lossy decoding corrupts a character across the chunk boundary, so
the two chunkings of the same bytes disagree. -/
theorem pump_chunk_split_corrupts_character :
    sseWhole = sseCutA ++ sseCutB
    ∧ (pump (str "openai") (str "s") [] [.ok sseWhole]).1
        = [⟨str "s", [Char.ofNat 0xE9], false, none⟩, ⟨str "s", [], true, none⟩]
    ∧ (pump (str "openai") (str "s") [] [.ok sseCutA, .ok sseCutB]).1
        = [⟨str "s", [replChar, replChar], false, none⟩, ⟨str "s", [], true, none⟩]
    ∧ (pump (str "openai") (str "s") [] [.ok sseWhole]).1
        ≠ (pump (str "openai") (str "s") [] [.ok sseCutA, .ok sseCutB]).1 := by
  refine ⟨by simp [sseWhole, sseCutA, sseCutB], rfl, rfl, by decide⟩

set_option maxRecDepth 16000 in
/-- C3 evaluation: `map_error` on a status of the catch-all arm and a body of
301 bytes whose 300th byte falls inside the two-byte `é` panics (the modelled
`none`) instead of returning a message. -/
theorem map_error_multibyte_boundary_panics :
    300 < utf8Len longBody ∧ map_error 418 (str "openai") (str "m") longBody = none :=
  ⟨of_decide_eq_true rfl, rfl⟩

set_option maxRecDepth 16000 in
/-- C4 evaluation: a streaming call whose response status hits `map_error`'s
catch-all arm with `longBody` panics before `app.emit`: the emitted event
sequence is empty — it contains no terminal event at all — and the call never
returns. -/
theorem ai_call_panics_with_no_terminal_event :
    (ai_call reqStream transport418).events = []
    ∧ (ai_call reqStream transport418).result = none :=
  ⟨rfl, rfl⟩

end Expo
